import Mathlib

/-!
Verification of the report normalization and analytics engine of the
kdp-render-backend repository (src/services/report_processor.py and
src/routes/optimization_supabase.py), shallowly embedded in Lean 4.

Modelling conventions:
* Python floats are modelled as rationals (ℚ).  The arithmetic the code
  performs is embedded through the kernel-evaluable operations
  `qadd`, `qsub`, `qmul`, `qdiv` below, which are proved equal to the
  standard ℚ operations (`qdiv a 0 = a / 0 = 0`; the code never divides
  by zero thanks to its guards, so this corner is unreachable anyway).
* Strings are manipulated through their character lists so that every
  definition evaluates inside the kernel.
* Python dicts are modelled as association lists in insertion order,
  matching CPython's documented dict semantics; rows are association
  lists from header name to raw cell text.
-/

namespace KDP

/-- Multiplication on ℚ, written so that it evaluates in the kernel
(`Rat.mul` is irreducible).  Proved equal to `*` in `qmul_eq`. -/
def qmul (a b : ℚ) : ℚ := mkRat (a.num * b.num) (a.den * b.den)

/-- Addition on ℚ that evaluates in the kernel; equal to `+` by `qadd_eq`. -/
def qadd (a b : ℚ) : ℚ := mkRat (a.num * b.den + b.num * a.den) (a.den * b.den)

/-- Division on ℚ that evaluates in the kernel; equal to `/` by `qdiv_eq`
(in particular `qdiv a 0 = 0 = a / 0`). -/
def qdiv (a b : ℚ) : ℚ :=
  if 0 ≤ b.num then mkRat (a.num * Int.ofNat b.den) (a.den * b.num.toNat)
  else mkRat (-(a.num * Int.ofNat b.den)) (a.den * (-b.num).toNat)

/-- Subtraction on ℚ that evaluates in the kernel; equal to `-` by `qsub_eq`. -/
def qsub (a b : ℚ) : ℚ := qadd a (-b)

theorem qmul_eq (a b : ℚ) : qmul a b = a * b := by
  conv_rhs => rw [← Rat.num_div_den a, ← Rat.num_div_den b]
  rw [qmul, Rat.mkRat_eq_div]
  push_cast
  rw [← div_mul_div_comm]

theorem qadd_eq (a b : ℚ) : qadd a b = a + b := by
  have ha : (a.den : ℚ) ≠ 0 := by exact_mod_cast a.den_nz
  have hb : (b.den : ℚ) ≠ 0 := by exact_mod_cast b.den_nz
  conv_rhs => rw [← Rat.num_div_den a, ← Rat.num_div_den b]
  rw [qadd, Rat.mkRat_eq_div]
  push_cast
  field_simp

theorem qdiv_eq (a b : ℚ) : qdiv a b = a / b := by
  have ha : (a.den : ℚ) ≠ 0 := by exact_mod_cast a.den_nz
  have hbd : (b.den : ℚ) ≠ 0 := by exact_mod_cast b.den_nz
  rcases lt_trichotomy b.num 0 with hb | hb | hb
  · rw [qdiv, if_neg (by omega)]
    conv_rhs => rw [← Rat.num_div_den a, ← Rat.num_div_den b]
    rw [Rat.mkRat_eq_div]
    have hbq : ((b.num : ℚ)) ≠ 0 := by
      exact_mod_cast Int.ne_of_lt hb
    have htn : (((-b.num).toNat : ℚ)) = -(b.num : ℚ) := by
      exact_mod_cast Int.toNat_of_nonneg (by omega : (0:ℤ) ≤ -b.num)
    push_cast [htn]
    field_simp
  · have hb0 : b = 0 := Rat.num_eq_zero.mp hb
    rw [qdiv, if_pos (by omega), hb0]
    simp
  · rw [qdiv, if_pos (le_of_lt hb)]
    conv_rhs => rw [← Rat.num_div_den a, ← Rat.num_div_den b]
    rw [Rat.mkRat_eq_div]
    have hbq : ((b.num : ℚ)) ≠ 0 := by
      exact_mod_cast Int.ne_of_gt hb
    have htn : ((b.num.toNat : ℚ)) = (b.num : ℚ) := by
      exact_mod_cast Int.toNat_of_nonneg (le_of_lt hb)
    push_cast [htn]
    field_simp

theorem qsub_eq (a b : ℚ) : qsub a b = a - b := by
  rw [qsub, qadd_eq, sub_eq_add_neg]

/-- Lower-case a string character by character (model of Python str.lower
for the ASCII data handled here). -/
def lowerStr (s : String) : String :=
  String.mk (s.data.map Char.toLower)

/-- Strip leading and trailing whitespace from a character list (model of
Python str.strip()). -/
def stripChars (l : List Char) : List Char :=
  ((l.dropWhile Char.isWhitespace).reverse.dropWhile Char.isWhitespace).reverse

/-- Model of Python str.strip() on strings. -/
def stripStr (s : String) : String :=
  String.mk (stripChars s.data)

/-- Numeric value of a list of decimal digit characters. -/
def digitsToNat (l : List Char) : Nat :=
  l.foldl (fun n c => 10 * n + (c.toNat - 48)) 0

/-- The regex substitution of `_parse_number` (report_processor.py):
remove every occurrence of comma, dollar and percent. -/
def removeCurrencyChars (l : List Char) : List Char :=
  l.filter (fun c => !(c == ',' || c == '$' || c == '%'))

/-- Model of Python float() on the finite decimal grammar: optional
surrounding whitespace, optional sign, a mantissa of digits with at most
one decimal point (at least one digit), and an optional e/E exponent.
Returns none where float() raises ValueError.  (The non-finite literals
inf/nan and digit-group underscores are outside the model; no claim
touches them.) -/
def parseFloatQ (s : String) : Option ℚ :=
  let l := stripChars s.data
  let signed : Bool × List Char :=
    match l with
    | '-' :: rest => (true, rest)
    | '+' :: rest => (false, rest)
    | _ => (false, l)
  let intDigits := signed.2.takeWhile Char.isDigit
  let afterInt := signed.2.dropWhile Char.isDigit
  let fracSplit : List Char × List Char :=
    match afterInt with
    | '.' :: rest => (rest.takeWhile Char.isDigit, rest.dropWhile Char.isDigit)
    | _ => ([], afterInt)
  if intDigits.isEmpty && fracSplit.1.isEmpty then none
  else
    let n : Int := Int.ofNat (digitsToNat (intDigits ++ fracSplit.1))
    let num : Int := if signed.1 then -n else n
    let den : Nat := 10 ^ fracSplit.1.length
    match fracSplit.2 with
    | [] => some (mkRat num den)
    | e :: rest =>
      if e == 'e' || e == 'E' then
        let esigned : Bool × List Char :=
          match rest with
          | '-' :: r => (true, r)
          | '+' :: r => (false, r)
          | _ => (false, rest)
        let expDigits := esigned.2.takeWhile Char.isDigit
        if expDigits.isEmpty || !(esigned.2.dropWhile Char.isDigit).isEmpty then none
        else
          let p := digitsToNat expDigits
          if esigned.1 then some (mkRat num (den * 10 ^ p))
          else some (mkRat (num * Int.ofNat (10 ^ p)) den)
      else none

/-- The literal tokens `_parse_number` treats as zero (compared after
lower-casing). -/
def zeroTokens : List String := ["", "n/a", "null", "none", "--"]

/-- Model of `_parse_number` (report_processor.py lines 407-418): empty/placeholder
tokens parse to zero; otherwise commas, dollar and percent signs are
removed and the remainder is converted by float(), any failure giving
zero.  Total — the embedding never raises, like the Python which catches
ValueError. -/
def parseNumber (value : String) : ℚ :=
  if value = "" || zeroTokens.contains (lowerStr value) then 0
  else
    match parseFloatQ (String.mk (removeCurrencyChars value.data)) with
    | some q => q
    | none => 0

/-- A missing field (Python None) is falsy in `_parse_number` exactly like
the empty string; extraction feeds optional column values through this. -/
def parseNumberOpt (value : Option String) : ℚ :=
  parseNumber (value.getD "")

example : parseNumber "$1,234.56" = mkRat 123456 100 := by decide
example : parseNumber "12%" = 12 := by decide
example : parseNumber "N/A" = 0 := by decide
example : parseNumber "" = 0 := by decide
example : parseNumber "-5.00" = -5 := by decide
example : parseNumber "1.5e2" = 150 := by decide
example : parseNumber "garbage" = 0 := by decide
example : (1234.56 : ℚ) = mkRat 123456 100 := by
  rw [Rat.mkRat_eq_div]; norm_num

/-- A calendar date (Python datetime.date). -/
structure Date where
  y : Nat
  m : Nat
  d : Nat
deriving DecidableEq, Repr

/-- Python date ordering: lexicographic on (year, month, day). -/
def dateLt (a b : Date) : Bool :=
  a.y < b.y || (a.y == b.y && (a.m < b.m || (a.m == b.m && a.d < b.d)))

/-- Tokens of a strptime format string: `%Y`, `%m`, `%d` or a literal
separator character. -/
inductive DTok where
  | year : DTok
  | month : DTok
  | day : DTok
  | lit : Char → DTok
deriving DecidableEq, Repr

/-- Value of a decimal digit character. -/
def digitVal (c : Char) : Nat := c.toNat - 48

/-- Gregorian leap-year rule, as implemented by Python's datetime. -/
def isLeap (y : Nat) : Bool :=
  y % 4 == 0 && (y % 100 != 0 || y % 400 == 0)

/-- Days in a month, as validated by Python's datetime.date. -/
def daysInMonth (y m : Nat) : Nat :=
  if m == 2 then (if isLeap y then 29 else 28)
  else if m == 4 || m == 6 || m == 9 || m == 11 then 30
  else 31

/-- CPython strptime matches `%m` with the regex `1[0-2]|0[1-9]|[1-9]`:
a two-digit alternative (value 1..12, never `00`) is preferred, with a
one-digit fallback on backtracking. -/
def month2Valid (a b : Char) : Bool :=
  a.isDigit && b.isDigit && 1 ≤ 10 * digitVal a + digitVal b && 10 * digitVal a + digitVal b ≤ 12

/-- CPython strptime matches `%d` with `3[01]|[12]\d|0[1-9]|[1-9]`:
two-digit values 1..31 first, one-digit fallback. -/
def day2Valid (a b : Char) : Bool :=
  a.isDigit && b.isDigit && 1 ≤ 10 * digitVal a + digitVal b && 10 * digitVal a + digitVal b ≤ 31

/-- One-digit `%m`/`%d` alternative `[1-9]`. -/
def oneDigitValid (a : Char) : Bool :=
  a.isDigit && 1 ≤ digitVal a

/-- Run a strptime format against a character list, with the limited
backtracking CPython's generated regex performs (two-digit month/day
alternatives first, one-digit fallback); the whole input must be
consumed, as strptime requires.  Accumulates year/month/day. -/
def runFmt : List DTok → List Char → Nat → Nat → Nat → Option (Nat × Nat × Nat)
  | [], [], y, m, d => some (y, m, d)
  | [], _ :: _, _, _, _ => none
  | DTok.lit c :: ts, cs, y, m, d =>
    match cs with
    | x :: rest => if x == c then runFmt ts rest y m d else none
    | [] => none
  | DTok.year :: ts, cs, _, m, d =>
    match cs with
    | a :: b :: c :: e :: rest =>
      if a.isDigit && b.isDigit && c.isDigit && e.isDigit then
        runFmt ts rest (digitsToNat [a, b, c, e]) m d
      else none
    | _ => none
  | DTok.month :: ts, cs, y, _, d =>
    match cs with
    | a :: b :: rest =>
      if month2Valid a b then
        match runFmt ts rest y (10 * digitVal a + digitVal b) d with
        | some r => some r
        | none =>
          if oneDigitValid a then runFmt ts (b :: rest) y (digitVal a) d else none
      else
        if oneDigitValid a then runFmt ts (b :: rest) y (digitVal a) d else none
    | [a] => if oneDigitValid a then runFmt ts [] y (digitVal a) d else none
    | [] => none
  | DTok.day :: ts, cs, y, m, _ =>
    match cs with
    | a :: b :: rest =>
      if day2Valid a b then
        match runFmt ts rest y m (10 * digitVal a + digitVal b) with
        | some r => some r
        | none =>
          if oneDigitValid a then runFmt ts (b :: rest) y m (digitVal a) else none
      else
        if oneDigitValid a then runFmt ts (b :: rest) y m (digitVal a) else none
    | [a] => if oneDigitValid a then runFmt ts [] y m (digitVal a) else none
    | [] => none

/-- datetime.strptime(s, fmt).date() for the formats used here: run the
format, then validate the date exactly as datetime.date does (year ≥ 1,
day within the month, leap years included); a validation failure is a
ValueError, i.e. none.  Defaults are strptime's 1900-01-01. -/
def strptime6 (fmt : List DTok) (s : String) : Option Date :=
  match runFmt fmt s.data 1900 1 1 with
  | some (y, m, d) =>
    if 1 ≤ y && 1 ≤ d && d ≤ daysInMonth y m then some ⟨y, m, d⟩ else none
  | none => none

/-- Format `%Y-%m-%d`. -/
def fmtYMDdash : List DTok := [DTok.year, DTok.lit '-', DTok.month, DTok.lit '-', DTok.day]

/-- Format `%m/%d/%Y`. -/
def fmtMDYslash : List DTok := [DTok.month, DTok.lit '/', DTok.day, DTok.lit '/', DTok.year]

/-- Format `%d/%m/%Y`. -/
def fmtDMYslash : List DTok := [DTok.day, DTok.lit '/', DTok.month, DTok.lit '/', DTok.year]

/-- Format `%Y/%m/%d`. -/
def fmtYMDslash : List DTok := [DTok.year, DTok.lit '/', DTok.month, DTok.lit '/', DTok.day]

/-- Format `%m-%d-%Y`. -/
def fmtMDYdash : List DTok := [DTok.month, DTok.lit '-', DTok.day, DTok.lit '-', DTok.year]

/-- Format `%d-%m-%Y`. -/
def fmtDMYdash : List DTok := [DTok.day, DTok.lit '-', DTok.month, DTok.lit '-', DTok.year]

/-- The fixed ordered format list of `_parse_date`
(report_processor.py lines 389-396): `%Y-%m-%d`, `%m/%d/%Y`, `%d/%m/%Y`,
`%Y/%m/%d`, `%m-%d-%Y`, `%d-%m-%Y`. -/
def dateFormats : List (List DTok) :=
  [fmtYMDdash, fmtMDYslash, fmtDMYslash, fmtYMDslash, fmtMDYdash, fmtDMYdash]

/-- Try the formats in order; the first that parses wins. -/
def tryFormats (fmts : List (List DTok)) (s : String) : Option Date :=
  fmts.findSome? (fun f => strptime6 f s)

/-- Model of `_parse_date` (report_processor.py lines 383-405): empty input and
input matched by no format fall back to the current date (passed in as
`now`, since the embedding is pure). -/
def parseDate (s : String) (now : Date) : Date :=
  if s = "" then now
  else
    match tryFormats dateFormats s with
    | some d => d
    | none => now

example : ∀ now, parseDate "2024-03-05" now = ⟨2024, 3, 5⟩ := by
  intro now
  unfold parseDate
  rw [if_neg (by decide),
    show tryFormats dateFormats "2024-03-05" = some ⟨2024, 3, 5⟩ from by decide]

example : tryFormats dateFormats "03/05/2024" = some ⟨2024, 3, 5⟩ := by decide
example : tryFormats dateFormats "13/05/2024" = some ⟨2024, 5, 13⟩ := by decide
example : tryFormats dateFormats "2024-02-30" = none := by decide
example : tryFormats dateFormats "2024-02-29" = some ⟨2024, 2, 29⟩ := by decide
example : tryFormats dateFormats "garbage" = none := by decide
example : tryFormats dateFormats "3/5/2024" = some ⟨2024, 3, 5⟩ := by decide

/-- Substring test: does the second list occur contiguously in the first?
(Python's `in` on strings.) -/
def containsSub (needle : List Char) : List Char → Bool
  | [] => needle.isEmpty
  | c :: rest => needle.isPrefixOf (c :: rest) || containsSub needle rest

/-- Python `sub in hay` on strings. -/
def strContains (hay sub : String) : Bool :=
  containsSub sub.data hay.data

/-- The six report-type tags of the processor. -/
def supportedTypes : List String :=
  [ "sponsored_products_campaign", "sponsored_products_keyword",
    "sponsored_brands_campaign", "sponsored_brands_keyword",
    "sponsored_display_campaign", "search_term" ]

/-- Model of `_detect_report_type` (report_processor.py lines 44-82).  The file
is represented by its (base)name and its header row; an unreadable file
corresponds to an empty header list, which matches no header pattern and
so reaches the same default as the Python except-branch. -/
def detectReportType (filename : String) (headers : List String) : String :=
  let fn := lowerStr filename
  if strContains fn "sponsored_products" && strContains fn "campaign" then
    "sponsored_products_campaign"
  else if strContains fn "sponsored_products" &&
      (strContains fn "keyword" || strContains fn "targeting") then
    "sponsored_products_keyword"
  else if strContains fn "sponsored_brands" && strContains fn "campaign" then
    "sponsored_brands_campaign"
  else if strContains fn "sponsored_brands" &&
      (strContains fn "keyword" || strContains fn "targeting") then
    "sponsored_brands_keyword"
  else if strContains fn "sponsored_display" then
    "sponsored_display_campaign"
  else if strContains fn "search_term" || strContains fn "search-term" then
    "search_term"
  else
    let headersLower := headers.map (fun h => stripStr (lowerStr h))
    if headersLower.contains "campaign name" && headersLower.contains "impressions" then
      if headersLower.contains "keyword" || headersLower.contains "targeting" then
        "sponsored_products_keyword"
      else
        "sponsored_products_campaign"
    else if headersLower.contains "search term" then
      "search_term"
    else
      "sponsored_products_campaign"

/-- Whether any of the six filename substring patterns fires. -/
def filenameMatches (filename : String) : Bool :=
  let fn := lowerStr filename
  (strContains fn "sponsored_products" && strContains fn "campaign") ||
  (strContains fn "sponsored_products" && (strContains fn "keyword" || strContains fn "targeting")) ||
  (strContains fn "sponsored_brands" && strContains fn "campaign") ||
  (strContains fn "sponsored_brands" && (strContains fn "keyword" || strContains fn "targeting")) ||
  strContains fn "sponsored_display" ||
  strContains fn "search_term" || strContains fn "search-term"

/-- Whether any of the header patterns fires. -/
def headerMatches (headers : List String) : Bool :=
  let headersLower := headers.map (fun h => stripStr (lowerStr h))
  (headersLower.contains "campaign name" && headersLower.contains "impressions") ||
  headersLower.contains "search term"

example : detectReportType "SponsoredProducts_Campaign_report.csv" [] =
    "sponsored_products_campaign" := by decide
example : detectReportType "weird_export.csv" ["Campaign Name", "Impressions", "Keyword"] =
    "sponsored_products_keyword" := by decide
example : detectReportType "sponsored_products_keyword_2024.csv" [] =
    "sponsored_products_keyword" := by decide

/-- A CSV row: association list from (normalized) header name to raw
cell text. -/
abbrev Row : Type := List (String × String)

/-- Python `row[col]` for a dict row (first binding wins; dict keys are
unique, so this is exact). -/
def lookupRow (row : Row) (col : String) : Option String :=
  (List.find? (fun p => p.1 == col) row).map (fun p => p.2)

/-- The column-mapper step of `_extract_campaign_data`: the first of the
candidate columns that is present in the row with a truthy (non-empty)
value, Python `if col in row and row[col]`. -/
def firstMatch (row : Row) (cols : List String) : Option String :=
  cols.findSome? (fun col =>
    match lookupRow row col with
    | some v => if v == "" then none else some v
    | none => none)

/-- Candidate headers for each canonical field, exactly the
`column_mappings` dict of `_extract_campaign_data`. -/
def campaignIdCols : List String := ["campaign id", "campaignid", "campaign"]

def campaignNameCols : List String := ["campaign name", "campaignname", "campaign"]

def dateCols : List String := ["date", "day", "report date"]

def impressionsCols : List String := ["impressions", "impr"]

def clicksCols : List String := ["clicks", "click"]

def spendCols : List String := ["spend", "cost", "total spend"]

def salesCols : List String :=
  ["sales", "attributed sales 7d", "attributed sales 14d", "attributed sales 30d"]

def ordersCols : List String :=
  ["orders", "attributed orders 7d", "attributed orders 14d", "attributed orders 30d"]

def unitsCols : List String :=
  ["units", "attributed units 7d", "attributed units 14d", "attributed units 30d"]

/-- A canonical per-row campaign record, the dict `_extract_campaign_data`
returns (also the shape of the CampaignData DB row the analytics
functions read back). -/
structure CampaignRecord where
  campaign_id : String
  campaign_name : String
  date : Date
  impressions : ℚ
  clicks : ℚ
  spend : ℚ
  sales : ℚ
  orders : ℚ
  units : ℚ
  ctr : ℚ
  cpc : ℚ
  acos : ℚ
  roas : ℚ
  conversion_rate : ℚ
deriving DecidableEq, Repr

/-- Model of `_extract_campaign_data` (report_processor.py lines 260-307): resolve
each field through the column mapper, parse numbers/dates leniently,
compute the five derived metrics with their zero-denominator guards, and
skip the row (none) when the campaign name is empty/missing.  `now` is
datetime.utcnow().date(), passed in since the embedding is pure. -/
def extractCampaignData (row : Row) (now : Date) : Option CampaignRecord :=
  let campaign_id := (firstMatch row campaignIdCols).getD ""
  let campaign_name := (firstMatch row campaignNameCols).getD ""
  let date :=
    match firstMatch row dateCols with
    | some v => parseDate v now
    | none => now
  let impressions := parseNumberOpt (firstMatch row impressionsCols)
  let clicks := parseNumberOpt (firstMatch row clicksCols)
  let spend := parseNumberOpt (firstMatch row spendCols)
  let sales := parseNumberOpt (firstMatch row salesCols)
  let orders := parseNumberOpt (firstMatch row ordersCols)
  let units := parseNumberOpt (firstMatch row unitsCols)
  let ctr := if 0 < impressions then qmul (qdiv clicks impressions) 100 else 0
  let cpc := if 0 < clicks then qdiv spend clicks else 0
  let acos := if 0 < sales then qmul (qdiv spend sales) 100 else 0
  let roas := if 0 < spend then qdiv sales spend else 0
  let conversion_rate := if 0 < clicks then qmul (qdiv orders clicks) 100 else 0
  if campaign_name = "" then none
  else
    some ⟨campaign_id, campaign_name, date, impressions, clicks, spend, sales,
      orders, units, ctr, cpc, acos, roas, conversion_rate⟩

/-- Insert or replace a binding in an association list, keeping the
position of an existing key (CPython dict assignment). -/
def setAssoc {β : Type} (l : List (String × β)) (k : String) (v : β) : List (String × β) :=
  match l with
  | [] => [(k, v)]
  | p :: rest => if p.1 == k then (k, v) :: rest else p :: setAssoc rest k v

/-- The row normalization of `_process_sponsored_products_campaign`:
`{k.strip().lower(): v.strip() for k, v in row.items()}`. -/
def normalizeRow (raw : Row) : Row :=
  raw.foldl (fun acc p => setAssoc acc (lowerStr (stripStr p.1)) (stripStr p.2)) []

/-- Running aggregates of the campaign-file processing loop. -/
structure ProcState where
  campaigns_processed : Nat
  total_spend : ℚ
  total_sales : ℚ
  total_impressions : ℚ
  total_clicks : ℚ
  date_range_start : Option Date
  date_range_end : Option Date
deriving DecidableEq, Repr

def initProcState : ProcState := ⟨0, 0, 0, 0, 0, none, none⟩

/-- One iteration of the row loop of
`_process_sponsored_products_campaign`: normalize the row, extract; a
skipped row (`continue`) leaves the state untouched; otherwise the
totals, row count and date range are updated.  (The database write of
the extracted record is a side effect outside the model.) -/
def stepRow (now : Date) (st : ProcState) (raw : Row) : ProcState :=
  match extractCampaignData (normalizeRow raw) now with
  | none => st
  | some cd =>
    { campaigns_processed := st.campaigns_processed + 1
      total_spend := qadd st.total_spend cd.spend
      total_sales := qadd st.total_sales cd.sales
      total_impressions := qadd st.total_impressions cd.impressions
      total_clicks := qadd st.total_clicks cd.clicks
      date_range_start :=
        match st.date_range_start with
        | none => some cd.date
        | some s => if dateLt cd.date s then some cd.date else some s
      date_range_end :=
        match st.date_range_end with
        | none => some cd.date
        | some e => if dateLt e cd.date then some cd.date else some e }

/-- The summary dict `_process_sponsored_products_campaign` returns. -/
structure ProcessSummary where
  campaigns_processed : Nat
  total_spend : ℚ
  total_sales : ℚ
  total_impressions : ℚ
  total_clicks : ℚ
  date_range_start : Option Date
  date_range_end : Option Date
  acos : ℚ
deriving DecidableEq, Repr

/-- Model of `_process_sponsored_products_campaign` (report_processor.py lines
84-156) on its sequence of raw rows. -/
def processSponsoredProductsCampaign (rows : List Row) (now : Date) : ProcessSummary :=
  let st := rows.foldl (stepRow now) initProcState
  ⟨st.campaigns_processed, st.total_spend, st.total_sales, st.total_impressions,
    st.total_clicks, st.date_range_start, st.date_range_end,
    if 0 < st.total_sales then qmul (qdiv st.total_spend st.total_sales) 100 else 0⟩

/-- Dict lookup on an association list. -/
def lookupAssoc {β : Type} (l : List (String × β)) (k : String) : Option β :=
  (List.find? (fun p => p.1 == k) l).map (fun p => p.2)

/-- Python `dict.setdefault`-then-update pattern used by the analytics
loops: modify the value at `k` in place if present, else append the new
binding at the end (dict insertion order). -/
def upsertWith {β : Type} (l : List (String × β)) (k : String) (f : Option β → β) :
    List (String × β) :=
  match l with
  | [] => [(k, f none)]
  | p :: rest => if p.1 == k then (p.1, f (some p.2)) :: rest else p :: upsertWith rest k f

/-- The shape shared by `_analyze_campaigns` and
`_calculate_efficiency_metrics`: a loop over the records folding each one
into a dict keyed by `amazon_campaign_id`. -/
def buildMap {α β : Type} (key : α → String) (f : Option β → α → β) :
    List α → List (String × β) → List (String × β)
  | [], acc => acc
  | r :: rs, acc => buildMap key f rs (upsertWith acc (key r) (fun o => f o r))

theorem lookupAssoc_upsertWith_self {β : Type} (l : List (String × β)) (k : String)
    (f : Option β → β) : lookupAssoc (upsertWith l k f) k = some (f (lookupAssoc l k)) := by
  induction l with
  | nil => simp [upsertWith, lookupAssoc]
  | cons p rest ih =>
    by_cases h : p.1 = k
    · simp [upsertWith, lookupAssoc, h, List.find?]
    · have hb : (p.1 == k) = false := by simp [h]
      simp only [upsertWith, hb, if_false, lookupAssoc, List.find?, hb]
      exact ih

theorem lookupAssoc_upsertWith_ne {β : Type} (l : List (String × β)) (k k' : String)
    (f : Option β → β) (h : k' ≠ k) :
    lookupAssoc (upsertWith l k f) k' = lookupAssoc l k' := by
  have hkk : (k == k') = false := by simp [Ne.symm h]
  induction l with
  | nil => simp [upsertWith, lookupAssoc, List.find?, hkk]
  | cons p rest ih =>
    rw [upsertWith]
    by_cases hp : p.1 = k
    · have hb : (p.1 == k) = true := by simp [hp]
      rw [if_pos hb]
      have hb2 : (p.1 == k') = false := by
        rw [hp]; exact hkk
      simp [lookupAssoc, List.find?, hb2]
    · have hb : (p.1 == k) = false := by simp [hp]
      rw [if_neg (by simp [hb])]
      by_cases hq : p.1 = k'
      · have hb2 : (p.1 == k') = true := by simp [hq]
        simp [lookupAssoc, List.find?, hb2]
      · have hb2 : (p.1 == k') = false := by simp [hq]
        simp only [lookupAssoc, List.find?, hb2]
        exact ih

theorem lookupAssoc_buildMap {α β : Type} (key : α → String) (f : Option β → α → β)
    (l : List α) (acc : List (String × β)) (k : String) :
    lookupAssoc (buildMap key f l acc) k =
      (l.filter (fun r => key r == k)).foldl (fun o r => some (f o r)) (lookupAssoc acc k) := by
  induction l generalizing acc with
  | nil => simp [buildMap]
  | cons r rs ih =>
    rw [buildMap, ih]
    by_cases h : key r = k
    · rw [List.filter_cons_of_pos (by simp [h]), List.foldl_cons, h,
        lookupAssoc_upsertWith_self]
    · rw [List.filter_cons_of_neg (by simp [h]),
        lookupAssoc_upsertWith_ne _ _ _ _ (Ne.symm h)]

theorem foldl_some {α β : Type} (step : Option β → α → β) (rs : List α) (t : β) :
    rs.foldl (fun o r => some (step o r)) (some t) =
      some (rs.foldl (fun b r => step (some b) r) t) := by
  induction rs generalizing t with
  | nil => rfl
  | cons r rest ih => simp only [List.foldl_cons]; exact ih _

/-- Lookup through the final `.map` that derives metrics per key. -/
theorem lookupAssoc_mapval {β γ : Type} (g : β → γ) (l : List (String × β)) (k : String) :
    lookupAssoc (l.map (fun p => (p.1, g p.2))) k = (lookupAssoc l k).map g := by
  induction l with
  | nil => rfl
  | cons p rest ih =>
    by_cases h : p.1 = k
    · simp [lookupAssoc, List.find?, h]
    · have hb : (p.1 == k) = false := by simp [h]
      simp only [lookupAssoc, List.map_cons, List.find?, hb] at ih ⊢
      exact ih

/-- The per-campaign accumulator dict of `_analyze_campaigns`
(report_processor.py lines 464-487). -/
structure CampaignTotals where
  name : String
  total_spend : ℚ
  total_sales : ℚ
  total_impressions : ℚ
  total_clicks : ℚ
  total_orders : ℚ
  days : Nat
deriving DecidableEq, Repr

/-- The fresh accumulator inserted on first sight of a campaign id. -/
def freshTotals (r : CampaignRecord) : CampaignTotals :=
  ⟨r.campaign_name, 0, 0, 0, 0, 0, 0⟩

/-- The `+=` block of the `_analyze_campaigns` loop. -/
def addTotals (t : CampaignTotals) (r : CampaignRecord) : CampaignTotals :=
  { t with
    total_spend := qadd t.total_spend r.spend
    total_sales := qadd t.total_sales r.sales
    total_impressions := qadd t.total_impressions r.impressions
    total_clicks := qadd t.total_clicks r.clicks
    total_orders := qadd t.total_orders r.orders
    days := t.days + 1 }

def campaignStep (o : Option CampaignTotals) (r : CampaignRecord) : CampaignTotals :=
  addTotals (o.getD (freshTotals r)) r

/-- A campaign aggregate after the second loop of `_analyze_campaigns`
derives the ratios over the sums. -/
structure CampaignAgg where
  name : String
  total_spend : ℚ
  total_sales : ℚ
  total_impressions : ℚ
  total_clicks : ℚ
  total_orders : ℚ
  days : Nat
  acos : ℚ
  roas : ℚ
  ctr : ℚ
  cpc : ℚ
  conversion_rate : ℚ
deriving DecidableEq, Repr

/-- The metric derivation of `_analyze_campaigns` (lines 489-494). -/
def withMetrics (t : CampaignTotals) : CampaignAgg :=
  ⟨t.name, t.total_spend, t.total_sales, t.total_impressions, t.total_clicks,
    t.total_orders, t.days,
    if 0 < t.total_sales then qmul (qdiv t.total_spend t.total_sales) 100 else 0,
    if 0 < t.total_spend then qdiv t.total_sales t.total_spend else 0,
    if 0 < t.total_impressions then qmul (qdiv t.total_clicks t.total_impressions) 100 else 0,
    if 0 < t.total_clicks then qdiv t.total_spend t.total_clicks else 0,
    if 0 < t.total_clicks then qmul (qdiv t.total_orders t.total_clicks) 100 else 0⟩

/-- The `campaign_details` map of `_analyze_campaigns` (lines 464-505):
sum the raw counters per campaign id, then derive the ratios over the
sums.  (The top/worst-performer rankings the function also returns are
views over this map and are not needed by any claim.) -/
def analyzeCampaigns (records : List CampaignRecord) : List (String × CampaignAgg) :=
  (buildMap (fun r => r.campaign_id) campaignStep records []).map
    (fun p => (p.1, withMetrics p.2))

/-- A value of the `campaign_efficiency` dict of
`_calculate_efficiency_metrics` (lines 539-565).  The
`optimization_potential` and `waste_score` fields are initialized to 0
and never updated by the code. -/
structure EffEntry where
  name : String
  efficiency_score : ℚ
  optimization_potential : ℚ
  waste_score : ℚ
deriving DecidableEq, Repr

/-- The per-record score written by the `_calculate_efficiency_metrics`
loop: `max((roas*10) - (acos/10) if roas > 0 else 0, 0)`, from the
record's stored per-row `roas`/`acos` (the `x if x else 0` guard is the
identity on numbers). -/
def effScoreOf (r : CampaignRecord) : ℚ :=
  max (if 0 < r.roas then qsub (qmul r.roas 10) (qdiv r.acos 10) else 0) 0

/-- The loop body: a fresh entry on first sight, then the score is
overwritten (not accumulated) on every record of that campaign. -/
def effStep (o : Option EffEntry) (r : CampaignRecord) : EffEntry :=
  let e := o.getD ⟨r.campaign_name, 0, 0, 0⟩
  { e with efficiency_score := effScoreOf r }

/-- Model of `_calculate_efficiency_metrics` (lines 539-565): the per-campaign
dict and `overall_efficiency = sum(scores)/len(dict)` (0 on an empty
dict). -/
def calculateEfficiencyMetrics (records : List CampaignRecord) :
    List (String × EffEntry) × ℚ :=
  let m := buildMap (fun r => r.campaign_id) effStep records []
  (m,
    if m.isEmpty then 0
    else qdiv ((m.map (fun p => p.2.efficiency_score)).foldl qadd 0) ((m.length : ℚ)))

/-- Modelled from the spec (§4.5 `efficiency_metrics`): the efficiency
score the specification describes, `max(0, roas*10 - acos/10)` computed
from the campaign's aggregated (ratio-of-sums) ROAS and ACOS — stated
with the kernel-evaluable operations, which equal `*`, `-`, `/` by the
bridge lemmas.  Used to compare the spec's description against
`calculateEfficiencyMetrics`. -/
def specAggregatedEfficiencyScore (records : List CampaignRecord) (k : String) : Option ℚ :=
  (lookupAssoc (analyzeCampaigns records) k).map
    (fun agg => max (qsub (qmul agg.roas 10) (qdiv agg.acos 10)) 0)

/-- Insert into a key-sorted list (ascending). -/
def insertByKey (p : Nat × ℚ) : List (Nat × ℚ) → List (Nat × ℚ)
  | [] => [p]
  | q :: rest => if p.1 ≤ q.1 then p :: q :: rest else q :: insertByKey p rest

/-- Python `sorted(daily_data.keys())` lifted to the key-value pairs: insertion
sort ascending by key. -/
def sortByKey : List (Nat × ℚ) → List (Nat × ℚ)
  | [] => []
  | p :: rest => insertByKey p (sortByKey rest)

/-- Model of `_calculate_trend_direction` (report_processor.py lines 606-620).
The daily dict is keyed by ISO date strings, whose lexicographic order is
the date order; the model keys by Nat, an order-isomorphic view, and the
values carry the day's ACOS (the only field the function reads).  The
float constants 0.9 and 1.1 are the exact rationals 9/10 and 11/10. -/
def calculateTrendDirection (daily : List (Nat × ℚ)) : String :=
  if daily.length < 2 then "insufficient_data"
  else
    let sorted := sortByKey daily
    let older := ((sorted.head?).map (fun p => p.2)).getD 0
    let recent := ((sorted.getLast?).map (fun p => p.2)).getD 0
    if recent < qmul older (mkRat 9 10) then "improving"
    else if qmul older (mkRat 11 10) < recent then "declining"
    else "stable"

example : calculateTrendDirection [(0, 40), (1, 30)] = "improving" := by decide
example : calculateTrendDirection [(0, 30), (1, 40)] = "declining" := by decide
example : calculateTrendDirection [(0, 30), (1, 31)] = "stable" := by decide
example : calculateTrendDirection [(0, 40)] = "insufficient_data" := by decide
example : calculateTrendDirection [(0, 40), (1, 36)] = "stable" := by decide

/-- A campaign row as read by `_generate_comprehensive_recommendations`
(optimization_supabase.py): `acos`, `cost` (spend) and `sales` are
floats, `impressions` and `clicks` ints. -/
structure SupaCampaign where
  campaign_name : String
  acos : ℚ
  cost : ℚ
  sales : ℚ
  impressions : Int
  clicks : Int
deriving DecidableEq, Repr

/-- An entry of the `campaign_recommendations` list; the two branches
populate different estimate keys, modelled as options. -/
structure CampaignRecommendation where
  campaign : String
  issue : String
  recommendation : String
  priority : String
  potential_savings : Option ℚ
  potential_revenue_increase : Option ℚ
deriving DecidableEq, Repr

/-- The `campaign_recommendations` entries one campaign contributes in
`_generate_comprehensive_recommendations` (optimization_supabase.py
lines 126-161): the High ACOS rule (`acos > 50 and spend > 10`) and the
Low Impressions rule (`impressions < 1000 and spend > 5`), in source
order.  (The scaling/bid/budget rules of the same function append to
other lists and are outside the claims.) -/
def campaignRecommendationsFor (c : SupaCampaign) : List CampaignRecommendation :=
  (if 50 < c.acos ∧ 10 < c.cost then
    [⟨c.campaign_name, "High ACOS",
      "Reduce bids by 20-30% or pause underperforming keywords", "High",
      some (qmul c.cost (mkRat 3 10)), none⟩]
  else []) ++
  (if c.impressions < 1000 ∧ 5 < c.cost then
    [⟨c.campaign_name, "Low Impressions",
      "Increase bids by 15-25% or expand keyword targeting", "Medium",
      none, some (qmul c.sales (mkRat 2 10))⟩]
  else [])

/-! Concrete inputs used by the claim theorems. -/

/-- A fixed "current date" standing for datetime.utcnow().date(). -/
def now0 : Date := ⟨2024, 6, 1⟩

/-- A well-formed campaign row. -/
def rowGood : Row :=
  [("campaign name", "A"), ("date", "2024-01-01"), ("impressions", "100"),
   ("clicks", "10"), ("spend", "5"), ("sales", "20"), ("orders", "2"),
   ("units", "2")]

/-- The record `rowGood` extracts to. -/
def recGood : CampaignRecord :=
  ⟨"", "A", ⟨2024, 1, 1⟩, 100, 10, 5, 20, 2, 2, 10, mkRat 1 2, 25, 4, 20⟩

example : extractCampaignData rowGood now0 = some recGood := by decide

/-- A campaign row whose spend cell is negative. -/
def rowNegSpend : Row :=
  [("campaign name", "Neg"), ("date", "2024-01-02"), ("impressions", "100"),
   ("clicks", "10"), ("spend", "-5.00"), ("sales", "10"), ("orders", "1"),
   ("units", "1")]

/-- A row with no campaign-name column at all. -/
def rowNoName : Row := [("impressions", "50"), ("clicks", "5")]

/-- C1 as written fails on rows with a negative denominator: the claim
reads `roas = sales/spend (0 if spend = 0)`, but on `rowNegSpend` the
parsed spend is -5 (not 0) and the code still stores roas = 0, not
10/(-5) = -2, because its guard is `spend > 0`, not `spend ≠ 0`. -/
theorem C1_counterexample :
    (extractCampaignData rowNegSpend now0).map (fun r => (r.spend, r.sales, r.roas)) =
      some (-5, 10, 0) ∧ (10 : ℚ) / (-5 : ℚ) ≠ 0 :=
  ⟨by decide, by norm_num⟩

/-- C1 (amended): for every extracted campaign row the derived metrics
are the guarded ratios of the parsed counters with the guards of the
code — ratio when the denominator is strictly positive, 0 otherwise
(so also 0 for a zero or negative denominator); no division is
performed when the guard fails, so no division-by-zero is ever raised
(the embedding is total). -/
theorem C1_derived_metrics (row : Row) (now : Date) (rec : CampaignRecord)
    (h : extractCampaignData row now = some rec) :
    rec.ctr = (if 0 < rec.impressions then rec.clicks / rec.impressions * 100 else 0) ∧
    rec.cpc = (if 0 < rec.clicks then rec.spend / rec.clicks else 0) ∧
    rec.acos = (if 0 < rec.sales then rec.spend / rec.sales * 100 else 0) ∧
    rec.roas = (if 0 < rec.spend then rec.sales / rec.spend else 0) ∧
    rec.conversion_rate = (if 0 < rec.clicks then rec.orders / rec.clicks * 100 else 0) := by
  simp only [extractCampaignData] at h
  by_cases hname : (firstMatch row campaignNameCols).getD "" = ""
  · rw [if_pos hname] at h
    cases h
  · rw [if_neg hname] at h
    injection h with h2
    subst h2
    refine ⟨?_, ?_, ?_, ?_, ?_⟩ <;>
      simp only [qmul_eq, qdiv_eq]

theorem C1_witness :
    recGood.ctr = (if 0 < recGood.impressions then recGood.clicks / recGood.impressions * 100 else 0) ∧
    recGood.cpc = (if 0 < recGood.clicks then recGood.spend / recGood.clicks else 0) ∧
    recGood.acos = (if 0 < recGood.sales then recGood.spend / recGood.sales * 100 else 0) ∧
    recGood.roas = (if 0 < recGood.spend then recGood.sales / recGood.spend else 0) ∧
    recGood.conversion_rate =
      (if 0 < recGood.clicks then recGood.orders / recGood.clicks * 100 else 0) :=
  C1_derived_metrics rowGood now0 recGood (by decide)

/-- C9: a campaign row whose campaign-name identity field is empty or
missing extracts to a skip (none), not an error, and removing such a row
from a file leaves the processing result of the remaining rows exactly
unchanged. -/
theorem C9_skip_row :
    (∀ (row : Row) (now : Date), firstMatch row campaignNameCols = none →
      extractCampaignData row now = none) ∧
    (∀ (rows1 rows2 : List Row) (row : Row) (now : Date),
      extractCampaignData (normalizeRow row) now = none →
      processSponsoredProductsCampaign (rows1 ++ row :: rows2) now =
        processSponsoredProductsCampaign (rows1 ++ rows2) now) := by
  constructor
  · intro row now h
    simp only [extractCampaignData, h]
    rfl
  · intro rows1 rows2 row now h
    unfold processSponsoredProductsCampaign
    simp only [List.foldl_append, List.foldl_cons, stepRow, h]

theorem C9_witness :
    processSponsoredProductsCampaign [rowGood, rowNoName] now0 =
      processSponsoredProductsCampaign [rowGood] now0 :=
  C9_skip_row.2 [rowGood] [] rowNoName now0 (by decide)

/-- C10: parse_number parses negative numerals unchanged and extraction
performs no clamping: a row with negative spend and positive sales
yields a canonical record with negative spend and negative acos. -/
theorem C10_negative_values_flow_through :
    parseNumber "-5.00" = -5 ∧
    (extractCampaignData rowNegSpend now0).map (fun r => (r.spend, r.acos)) =
      some (-5, -50) ∧
    ((-5 : ℚ) < 0 ∧ (-50 : ℚ) < 0) :=
  ⟨by decide, by decide, by decide, by decide⟩

/-- C7: parse_number treats the placeholder tokens (case-insensitively)
as zero, returns zero on any residual float() failure after stripping
the `$`, `,`, `%` characters, converts the stripped text otherwise, and
evaluates the four examples of the spec; it is a total function (never
raises). -/
theorem C7_parse_number :
    (∀ s : String, lowerStr s ∈ zeroTokens → parseNumber s = 0) ∧
    (∀ s : String, parseFloatQ (String.mk (removeCurrencyChars s.data)) = none →
      parseNumber s = 0) ∧
    (∀ s : String, s ≠ "" → lowerStr s ∉ zeroTokens →
      parseNumber s = (parseFloatQ (String.mk (removeCurrencyChars s.data))).getD 0) ∧
    parseNumber "$1,234.56" = 1234.56 ∧
    parseNumber "12%" = 12 ∧
    parseNumber "N/A" = 0 ∧
    parseNumber "" = 0 := by
  refine ⟨?_, ?_, ?_, ?_, by decide, by decide, by decide⟩
  · intro s h
    have hc : zeroTokens.contains (lowerStr s) = true := by simpa using h
    simp [parseNumber, h, hc]
  · intro s h
    unfold parseNumber
    split
    · rfl
    · rw [h]
  · intro s h1 h2
    have hc : zeroTokens.contains (lowerStr s) = false := by simpa using h2
    simp only [parseNumber, hc, Bool.or_false, decide_eq_true_eq, if_neg h1]
    cases hpf : parseFloatQ (String.mk (removeCurrencyChars s.data)) <;> simp [hpf]
  · rw [show (1234.56 : ℚ) = mkRat 123456 100 from by rw [Rat.mkRat_eq_div]; norm_num]
    decide

theorem C7_witness : parseNumber "NULL" = 0 :=
  C7_parse_number.1 "NULL" (by decide)

/-- C8: parse_date resolves "2024-03-05" by the first format and the
ambiguous "03/05/2024" as MM/DD/YYYY (March 5, never May 3) because the
formats are tried in a fixed order and the first success wins; empty or
unparseable input falls back to the current date instead of raising. -/
theorem C8_parse_date :
    (∀ now, parseDate "2024-03-05" now = ⟨2024, 3, 5⟩) ∧
    (∀ now, parseDate "03/05/2024" now = ⟨2024, 3, 5⟩) ∧
    (∀ now, parseDate "03/05/2024" now ≠ ⟨2024, 5, 3⟩) ∧
    (∀ now, parseDate "" now = now) ∧
    (∀ (s : String) (now : Date), s ≠ "" → tryFormats dateFormats s = none →
      parseDate s now = now) ∧
    (∀ (s : String) (now : Date) (d : Date),
      strptime6 fmtYMDdash s = none → strptime6 fmtMDYslash s = some d →
      parseDate s now = d) := by
  have h05 : ∀ now, parseDate "03/05/2024" now = ⟨2024, 3, 5⟩ := by
    intro now
    unfold parseDate
    rw [if_neg (by decide),
      show tryFormats dateFormats "03/05/2024" = some ⟨2024, 3, 5⟩ from by decide]
  refine ⟨?_, h05, fun now => by rw [h05 now]; decide, ?_, ?_, ?_⟩
  · intro now
    unfold parseDate
    rw [if_neg (by decide),
      show tryFormats dateFormats "2024-03-05" = some ⟨2024, 3, 5⟩ from by decide]
  · intro now
    unfold parseDate
    rw [if_pos rfl]
  · intro s now hs h
    unfold parseDate
    rw [if_neg hs, h]
  · intro s now d h1 h2
    have hs : s ≠ "" := by
      intro he
      subst he
      rw [show strptime6 fmtMDYslash "" = none from by decide] at h2
      cases h2
    unfold parseDate
    rw [if_neg hs]
    unfold tryFormats dateFormats
    simp only [List.findSome?_cons, h1, h2]

theorem C8_witness : parseDate "notadate" ⟨2020, 1, 1⟩ = ⟨2020, 1, 1⟩ :=
  C8_parse_date.2.2.2.2.1 "notadate" ⟨2020, 1, 1⟩ (by decide) (by decide)

/-- C6: report-type detection evaluates its two example inputs as the
spec says, always returns one of the six supported tags (it never
fails), gives the first filename pattern priority over everything else,
and defaults to sponsored_products_campaign when no filename and no
header pattern matches. -/
theorem C6_detect_report_type :
    detectReportType "SponsoredProducts_Campaign_report.csv" [] =
      "sponsored_products_campaign" ∧
    detectReportType "weird_export.csv" ["Campaign Name", "Impressions", "Keyword"] =
      "sponsored_products_keyword" ∧
    (∀ (fn : String) (hdrs : List String), detectReportType fn hdrs ∈ supportedTypes) ∧
    (∀ (fn : String) (hdrs : List String),
      strContains (lowerStr fn) "sponsored_products" = true →
      strContains (lowerStr fn) "campaign" = true →
      detectReportType fn hdrs = "sponsored_products_campaign") ∧
    (∀ (fn : String) (hdrs : List String),
      filenameMatches fn = false → headerMatches hdrs = false →
      detectReportType fn hdrs = "sponsored_products_campaign") := by
  refine ⟨by decide, by decide, ?_, ?_, ?_⟩
  · intro fn hdrs
    simp only [detectReportType, supportedTypes]
    split_ifs <;> simp
  · intro fn hdrs h1 h2
    simp only [detectReportType]
    rw [h1, h2]
    simp
  · intro fn hdrs h1 h2
    unfold filenameMatches at h1
    simp only [Bool.or_eq_false_iff] at h1
    obtain ⟨⟨⟨⟨⟨⟨hA, hB⟩, hC⟩, hD⟩, hE⟩, hF⟩, hG⟩ := h1
    unfold headerMatches at h2
    simp only [Bool.or_eq_false_iff] at h2
    obtain ⟨hH, hI⟩ := h2
    unfold detectReportType
    simp only [hA, hB, hC, hD, hE, hF, hG, hH, hI, Bool.or_self, Bool.or_false,
      Bool.false_or, if_false, Bool.false_eq_true]

theorem C6_witness :
    detectReportType "report_2024.csv" ["Date", "Cost"] = "sponsored_products_campaign" :=
  C6_detect_report_type.2.2.2.2 "report_2024.csv" ["Date", "Cost"] (by decide) (by decide)

/-- A campaign row matching the spec's recommendation example:
spend $100, sales $150, stored ACOS 100/150*100 = 200/3 ≈ 66.7%. -/
def exampleCampaign : SupaCampaign :=
  ⟨"Example", mkRat 200 3, 100, 150, 100000, 500⟩

/-- The High ACOS recommendation `exampleCampaign` triggers. -/
def exampleHighAcosRec : CampaignRecommendation :=
  ⟨"Example", "High ACOS", "Reduce bids by 20-30% or pause underperforming keywords",
    "High", some 30, none⟩

/-- C4: a campaign contributes a "High ACOS" campaign recommendation
exactly when its ACOS exceeds 50 and its spend exceeds $10; the
recommendation has priority High, suggests reducing bids 20-30% or
pausing, and estimates potential savings spend × 0.3; the spec's
spend=$100 / sales=$150 example yields potential_savings 30. -/
theorem C4_high_acos_rule :
    (∀ c : SupaCampaign,
      (∃ r ∈ campaignRecommendationsFor c, r.issue = "High ACOS") ↔
        (50 < c.acos ∧ 10 < c.cost)) ∧
    (∀ (c : SupaCampaign) (r : CampaignRecommendation),
      r ∈ campaignRecommendationsFor c → r.issue = "High ACOS" →
      r.priority = "High" ∧
      r.recommendation = "Reduce bids by 20-30% or pause underperforming keywords" ∧
      r.potential_savings = some (c.cost * (3 / 10))) ∧
    campaignRecommendationsFor exampleCampaign = [exampleHighAcosRec] ∧
    exampleHighAcosRec.potential_savings = some 30 ∧
    exampleCampaign.acos = 100 / 150 * 100 := by
  have hsav : ∀ c : SupaCampaign, qmul c.cost (mkRat 3 10) = c.cost * (3 / 10) := by
    intro c
    rw [qmul_eq, show (mkRat 3 10 : ℚ) = 3 / 10 from by rw [Rat.mkRat_eq_div]; norm_num]
  refine ⟨?_, ?_, by decide, by decide, ?_⟩
  · intro c
    constructor
    · rintro ⟨r, hr, hissue⟩
      by_cases h1 : 50 < c.acos ∧ 10 < c.cost
      · exact h1
      exfalso
      unfold campaignRecommendationsFor at hr
      rw [if_neg h1] at hr
      simp only [List.nil_append] at hr
      by_cases h2 : c.impressions < 1000 ∧ 5 < c.cost
      · rw [if_pos h2] at hr
        simp only [List.mem_singleton] at hr
        subst hr
        simp at hissue
      · rw [if_neg h2] at hr
        simp at hr
    · intro h1
      refine ⟨⟨c.campaign_name, "High ACOS",
        "Reduce bids by 20-30% or pause underperforming keywords", "High",
        some (qmul c.cost (mkRat 3 10)), none⟩, ?_, rfl⟩
      unfold campaignRecommendationsFor
      rw [if_pos h1]
      simp
  · intro c r hr hissue
    unfold campaignRecommendationsFor at hr
    by_cases h1 : 50 < c.acos ∧ 10 < c.cost
    · rw [if_pos h1] at hr
      by_cases h2 : c.impressions < 1000 ∧ 5 < c.cost
      · rw [if_pos h2] at hr
        simp only [List.cons_append, List.nil_append, List.mem_cons,
          List.mem_singleton, List.not_mem_nil, or_false] at hr
        rcases hr with hr | hr
        · subst hr
          refine ⟨rfl, rfl, ?_⟩
          show some (qmul c.cost (mkRat 3 10)) = _
          rw [hsav c]
        · subst hr
          simp at hissue
      · rw [if_neg h2] at hr
        simp only [List.append_nil, List.mem_singleton] at hr
        subst hr
        refine ⟨rfl, rfl, ?_⟩
        show some (qmul c.cost (mkRat 3 10)) = _
        rw [hsav c]
    · rw [if_neg h1] at hr
      simp only [List.nil_append] at hr
      by_cases h2 : c.impressions < 1000 ∧ 5 < c.cost
      · rw [if_pos h2] at hr
        simp only [List.mem_singleton] at hr
        subst hr
        simp at hissue
      · rw [if_neg h2] at hr
        simp at hr
  · show (mkRat 200 3 : ℚ) = 100 / 150 * 100
    rw [Rat.mkRat_eq_div]
    norm_num

theorem C4_witness :
    exampleHighAcosRec.priority = "High" ∧
    exampleHighAcosRec.recommendation =
      "Reduce bids by 20-30% or pause underperforming keywords" ∧
    exampleHighAcosRec.potential_savings = some (exampleCampaign.cost * (3 / 10)) :=
  C4_high_acos_rule.2.1 exampleCampaign exampleHighAcosRec (by decide) (by decide)

theorem sortByKey_of_sorted (l : List (Nat × ℚ))
    (h : List.Chain' (fun p q => p.1 < q.1) l) : sortByKey l = l := by
  induction l with
  | nil => rfl
  | cons p rest ih =>
    simp only [sortByKey]
    rw [ih h.tail]
    cases rest with
    | nil => rfl
    | cons q t =>
      have hpq : p.1 < q.1 := (List.chain'_cons.mp h).1
      simp only [insertByKey]
      rw [if_pos (le_of_lt hpq)]

/-- C3 (amended): the trend over a daily map (strictly ascending date
keys) is `insufficient_data` below 2 dates, `improving` when the most
recent ACOS is strictly below 90% of the earliest (the code compares with
`<`, not `≤`), otherwise `declining` when strictly above 110% (`>`, not
`≥`), otherwise `stable`. -/
theorem C3_trend_direction (daily : List (Nat × ℚ))
    (hsorted : List.Chain' (fun p q => p.1 < q.1) daily) :
    (daily.length < 2 → calculateTrendDirection daily = "insufficient_data") ∧
    (∀ a0 an : Nat × ℚ, daily.head? = some a0 → daily.getLast? = some an →
      2 ≤ daily.length →
      ((an.2 < a0.2 * (9 / 10) → calculateTrendDirection daily = "improving") ∧
       (¬ an.2 < a0.2 * (9 / 10) → a0.2 * (11 / 10) < an.2 →
         calculateTrendDirection daily = "declining") ∧
       (¬ an.2 < a0.2 * (9 / 10) → ¬ a0.2 * (11 / 10) < an.2 →
         calculateTrendDirection daily = "stable"))) := by
  have hmk9 : ∀ a : ℚ, qmul a (mkRat 9 10) = a * (9 / 10) := by
    intro a
    rw [qmul_eq, show (mkRat 9 10 : ℚ) = 9 / 10 from by rw [Rat.mkRat_eq_div]; norm_num]
  have hmk11 : ∀ a : ℚ, qmul a (mkRat 11 10) = a * (11 / 10) := by
    intro a
    rw [qmul_eq, show (mkRat 11 10 : ℚ) = 11 / 10 from by rw [Rat.mkRat_eq_div]; norm_num]
  constructor
  · intro hlen
    unfold calculateTrendDirection
    rw [if_pos hlen]
  · intro a0 an h0 hn hlen
    have hs : sortByKey daily = daily := sortByKey_of_sorted daily hsorted
    have hnot : ¬ daily.length < 2 := by omega
    refine ⟨?_, ?_, ?_⟩
    · intro hcmp
      unfold calculateTrendDirection
      rw [if_neg hnot]
      simp only [hs, h0, hn, Option.map_some', Option.getD_some, hmk9, hmk11]
      rw [if_pos hcmp]
    · intro hcmp1 hcmp2
      unfold calculateTrendDirection
      rw [if_neg hnot]
      simp only [hs, h0, hn, Option.map_some', Option.getD_some, hmk9, hmk11]
      rw [if_neg hcmp1, if_pos hcmp2]
    · intro hcmp1 hcmp2
      unfold calculateTrendDirection
      rw [if_neg hnot]
      simp only [hs, h0, hn, Option.map_some', Option.getD_some, hmk9, hmk11]
      rw [if_neg hcmp1, if_neg hcmp2]

/-- C3 as written fails at the boundary: with earliest ACOS 40 and most
recent 36 = 90% of 40, the claim requires `improving` (recent ≤ 90% of
earliest) but the code's strict `<` yields `stable`. -/
theorem C3_counterexample :
    calculateTrendDirection [(0, 40), (1, 36)] = "stable" ∧
    (36 : ℚ) ≤ 40 * (9 / 10) ∧
    calculateTrendDirection [(0, 40), (1, 36)] ≠ "improving" :=
  ⟨by decide, by norm_num, by decide⟩

theorem C3_witness : calculateTrendDirection [(0, 30), (1, 40)] = "declining" :=
  ((C3_trend_direction [(0, 30), (1, 40)] (List.chain'_pair.mpr (by decide))).2
    (0, 30) (1, 40) rfl rfl (by decide)).2.1 (by norm_num) (by norm_num)

theorem lookupAssoc_nil {β : Type} (k : String) :
    lookupAssoc ([] : List (String × β)) k = none := rfl

/-- The counter sums over the records sharing a campaign identifier —
the statement vocabulary for ratio-of-sums. -/
def sumSpendFor (records : List CampaignRecord) (k : String) : ℚ :=
  ((records.filter (fun r => r.campaign_id == k)).map (fun r => r.spend)).sum

def sumSalesFor (records : List CampaignRecord) (k : String) : ℚ :=
  ((records.filter (fun r => r.campaign_id == k)).map (fun r => r.sales)).sum

def sumImpressionsFor (records : List CampaignRecord) (k : String) : ℚ :=
  ((records.filter (fun r => r.campaign_id == k)).map (fun r => r.impressions)).sum

def sumClicksFor (records : List CampaignRecord) (k : String) : ℚ :=
  ((records.filter (fun r => r.campaign_id == k)).map (fun r => r.clicks)).sum

def sumOrdersFor (records : List CampaignRecord) (k : String) : ℚ :=
  ((records.filter (fun r => r.campaign_id == k)).map (fun r => r.orders)).sum

theorem foldl_addTotals (rs : List CampaignRecord) (t : CampaignTotals) :
    (rs.foldl addTotals t).total_spend = t.total_spend + (rs.map (fun r => r.spend)).sum ∧
    (rs.foldl addTotals t).total_sales = t.total_sales + (rs.map (fun r => r.sales)).sum ∧
    (rs.foldl addTotals t).total_impressions =
      t.total_impressions + (rs.map (fun r => r.impressions)).sum ∧
    (rs.foldl addTotals t).total_clicks = t.total_clicks + (rs.map (fun r => r.clicks)).sum ∧
    (rs.foldl addTotals t).total_orders = t.total_orders + (rs.map (fun r => r.orders)).sum := by
  induction rs generalizing t with
  | nil => simp
  | cons r rest ih =>
    obtain ⟨h1, h2, h3, h4, h5⟩ := ih (addTotals t r)
    simp only [List.foldl_cons, List.map_cons, List.sum_cons]
    rw [h1, h2, h3, h4, h5]
    simp only [addTotals, qadd_eq]
    refine ⟨by ring, by ring, by ring, by ring, by ring⟩

/-- Records of the spec's ratio-of-sums example, one campaign,
[(spend 10, sales 0), (spend 0, sales 20)]. -/
def c2recA : CampaignRecord :=
  ⟨"c1", "C One", ⟨2024, 1, 1⟩, 0, 0, 10, 0, 0, 0, 0, 0, 0, 0, 0⟩

def c2recB : CampaignRecord :=
  ⟨"c1", "C One", ⟨2024, 1, 2⟩, 0, 0, 0, 20, 0, 0, 0, 0, 0, 0, 0⟩

/-- The aggregate `_analyze_campaigns` produces for them. -/
def c2agg : CampaignAgg := ⟨"C One", 10, 20, 0, 0, 0, 2, 50, 2, 0, 0, 0⟩

/-- C2: every per-campaign aggregate of `_analyze_campaigns` carries the
sums of the raw counters of the records sharing that campaign id, and
its metrics are the guarded ratios of those sums (ratio-of-sums, not
mean-of-ratios); in particular the two-record example aggregates to
ACOS = 10/20*100 = 50. -/
theorem C2_ratio_of_sums :
    (∀ (records : List CampaignRecord) (k : String) (agg : CampaignAgg),
      lookupAssoc (analyzeCampaigns records) k = some agg →
      agg.total_spend = sumSpendFor records k ∧
      agg.total_sales = sumSalesFor records k ∧
      agg.total_impressions = sumImpressionsFor records k ∧
      agg.total_clicks = sumClicksFor records k ∧
      agg.total_orders = sumOrdersFor records k ∧
      agg.acos = (if 0 < sumSalesFor records k then
        sumSpendFor records k / sumSalesFor records k * 100 else 0) ∧
      agg.roas = (if 0 < sumSpendFor records k then
        sumSalesFor records k / sumSpendFor records k else 0) ∧
      agg.ctr = (if 0 < sumImpressionsFor records k then
        sumClicksFor records k / sumImpressionsFor records k * 100 else 0) ∧
      agg.cpc = (if 0 < sumClicksFor records k then
        sumSpendFor records k / sumClicksFor records k else 0) ∧
      agg.conversion_rate = (if 0 < sumClicksFor records k then
        sumOrdersFor records k / sumClicksFor records k * 100 else 0)) ∧
    ((lookupAssoc (analyzeCampaigns [c2recA, c2recB]) "c1").map (fun a => a.acos) =
      some 50) := by
  constructor
  · intro records k agg h
    unfold analyzeCampaigns at h
    rw [lookupAssoc_mapval, lookupAssoc_buildMap, lookupAssoc_nil] at h
    cases hf : records.filter (fun r => r.campaign_id == k) with
    | nil =>
      rw [hf] at h
      simp at h
    | cons r0 rest =>
      rw [hf] at h
      simp only [List.foldl_cons] at h
      rw [foldl_some] at h
      simp only [campaignStep, Option.getD_some, Option.getD_none,
        Option.map_some', Option.some.injEq] at h
      subst h
      obtain ⟨h1, h2, h3, h4, h5⟩ := foldl_addTotals rest (addTotals (freshTotals r0) r0)
      have hS : (rest.foldl addTotals (addTotals (freshTotals r0) r0)).total_spend =
          sumSpendFor records k := by
        rw [h1]
        unfold sumSpendFor
        rw [hf]
        simp only [List.map_cons, List.sum_cons, addTotals, freshTotals, qadd_eq]
        ring
      have hSa : (rest.foldl addTotals (addTotals (freshTotals r0) r0)).total_sales =
          sumSalesFor records k := by
        rw [h2]
        unfold sumSalesFor
        rw [hf]
        simp only [List.map_cons, List.sum_cons, addTotals, freshTotals, qadd_eq]
        ring
      have hI : (rest.foldl addTotals (addTotals (freshTotals r0) r0)).total_impressions =
          sumImpressionsFor records k := by
        rw [h3]
        unfold sumImpressionsFor
        rw [hf]
        simp only [List.map_cons, List.sum_cons, addTotals, freshTotals, qadd_eq]
        ring
      have hC : (rest.foldl addTotals (addTotals (freshTotals r0) r0)).total_clicks =
          sumClicksFor records k := by
        rw [h4]
        unfold sumClicksFor
        rw [hf]
        simp only [List.map_cons, List.sum_cons, addTotals, freshTotals, qadd_eq]
        ring
      have hO : (rest.foldl addTotals (addTotals (freshTotals r0) r0)).total_orders =
          sumOrdersFor records k := by
        rw [h5]
        unfold sumOrdersFor
        rw [hf]
        simp only [List.map_cons, List.sum_cons, addTotals, freshTotals, qadd_eq]
        ring
      refine ⟨hS, hSa, hI, hC, hO, ?_, ?_, ?_, ?_, ?_⟩ <;>
        simp only [withMetrics, qmul_eq, qdiv_eq, hS, hSa, hI, hC, hO]
  · decide

theorem C2_witness :
    c2agg.total_spend = sumSpendFor [c2recA, c2recB] "c1" ∧
    c2agg.total_sales = sumSalesFor [c2recA, c2recB] "c1" ∧
    c2agg.total_impressions = sumImpressionsFor [c2recA, c2recB] "c1" ∧
    c2agg.total_clicks = sumClicksFor [c2recA, c2recB] "c1" ∧
    c2agg.total_orders = sumOrdersFor [c2recA, c2recB] "c1" ∧
    c2agg.acos = (if 0 < sumSalesFor [c2recA, c2recB] "c1" then
      sumSpendFor [c2recA, c2recB] "c1" / sumSalesFor [c2recA, c2recB] "c1" * 100 else 0) ∧
    c2agg.roas = (if 0 < sumSpendFor [c2recA, c2recB] "c1" then
      sumSalesFor [c2recA, c2recB] "c1" / sumSpendFor [c2recA, c2recB] "c1" else 0) ∧
    c2agg.ctr = (if 0 < sumImpressionsFor [c2recA, c2recB] "c1" then
      sumClicksFor [c2recA, c2recB] "c1" / sumImpressionsFor [c2recA, c2recB] "c1" * 100
      else 0) ∧
    c2agg.cpc = (if 0 < sumClicksFor [c2recA, c2recB] "c1" then
      sumSpendFor [c2recA, c2recB] "c1" / sumClicksFor [c2recA, c2recB] "c1" else 0) ∧
    c2agg.conversion_rate = (if 0 < sumClicksFor [c2recA, c2recB] "c1" then
      sumOrdersFor [c2recA, c2recB] "c1" / sumClicksFor [c2recA, c2recB] "c1" * 100 else 0) :=
  C2_ratio_of_sums.1 [c2recA, c2recB] "c1" c2agg (by decide)

theorem foldl_effStep_score (rs : List CampaignRecord) (e0 : EffEntry) :
    (rs.foldl (fun e r => effStep (some e) r) e0).efficiency_score =
      (match rs.getLast? with
       | some r => effScoreOf r
       | none => e0.efficiency_score) := by
  induction rs generalizing e0 with
  | nil => rfl
  | cons r rest ih =>
    simp only [List.foldl_cons]
    rw [ih]
    cases rest with
    | nil => rfl
    | cons b t =>
      rw [List.getLast?_cons_cons]
      cases hbt : (b :: t).getLast? with
      | none =>
        exact absurd (List.getLast?_eq_none_iff.mp hbt) (by simp)
      | some r1 => rfl

theorem foldl_qadd (l : List ℚ) (a : ℚ) : l.foldl qadd a = a + l.sum := by
  induction l generalizing a with
  | nil => simp
  | cons x xs ih =>
    simp only [List.foldl_cons, List.sum_cons, ih, qadd_eq]
    ring

/-- The two records refuting the aggregated reading of the efficiency
score: same campaign, day 1 spend 100 / sales 1 (stored per-row
roas 1/100, acos 10000), day 2 spend 1 / sales 100 (stored roas 100,
acos 1). -/
def effRec1 : CampaignRecord :=
  ⟨"c", "C", ⟨2024, 1, 1⟩, 0, 0, 100, 1, 0, 0, 0, 0, 10000, mkRat 1 100, 0⟩

def effRec2 : CampaignRecord :=
  ⟨"c", "C", ⟨2024, 1, 2⟩, 0, 0, 1, 100, 0, 0, 0, 0, 1, 100, 0⟩

/-- C5 as written fails: the code computes each campaign's efficiency
score from the per-row stored roas/acos of whichever record of that
campaign it sees last (the loop overwrites the score), not from the
aggregated ratio-of-sums values.  On the two records above the code
yields 100*10 - 1/10 = 999.9 while the claim's aggregated formula
(roas 1, acos 100) yields max(0, 10 - 10) = 0. -/
theorem C5_counterexample :
    ((lookupAssoc (calculateEfficiencyMetrics [effRec1, effRec2]).1 "c").map
        (fun e => e.efficiency_score) = some (mkRat 9999 10)) ∧
    specAggregatedEfficiencyScore [effRec1, effRec2] "c" = some 0 ∧
    (mkRat 9999 10 : ℚ) ≠ 0 :=
  ⟨by decide, by decide, by decide⟩

/-- C5 (amended): for every campaign key, the stored efficiency score is
`max(0, roas*10 - acos/10 if roas > 0 else 0)` computed from the LAST
record of that campaign in input order (per-row stored roas/acos, not
the aggregated ratios), and overall_efficiency is the arithmetic mean of
the per-campaign scores. -/
theorem C5_efficiency_score :
    (∀ (records : List CampaignRecord) (k : String) (e : EffEntry) (r : CampaignRecord),
      lookupAssoc (calculateEfficiencyMetrics records).1 k = some e →
      (records.filter (fun x => x.campaign_id == k)).getLast? = some r →
      e.efficiency_score = max (if 0 < r.roas then r.roas * 10 - r.acos / 10 else 0) 0) ∧
    (∀ records : List CampaignRecord, (calculateEfficiencyMetrics records).1 ≠ [] →
      (calculateEfficiencyMetrics records).2 =
        ((calculateEfficiencyMetrics records).1.map (fun p => p.2.efficiency_score)).sum /
          (((calculateEfficiencyMetrics records).1.length : ℚ))) := by
  constructor
  · intro records k e r h hlast
    have hm : (calculateEfficiencyMetrics records).1 =
        buildMap (fun x => x.campaign_id) effStep records [] := rfl
    rw [hm, lookupAssoc_buildMap, lookupAssoc_nil] at h
    cases hf : records.filter (fun x => x.campaign_id == k) with
    | nil =>
      rw [hf] at hlast
      simp at hlast
    | cons r0 rest =>
      rw [hf] at h hlast
      simp only [List.foldl_cons] at h
      rw [foldl_some] at h
      simp only [Option.some.injEq] at h
      subst h
      rw [show (fun (b : EffEntry) (x : CampaignRecord) => effStep (some b) x) =
        (fun b x => effStep (some b) x) from rfl, foldl_effStep_score]
      cases hl : rest.getLast? with
      | none =>
        have hrest : rest = [] := List.getLast?_eq_none_iff.mp hl
        subst hrest
        simp only [List.getLast?_singleton, Option.some.injEq] at hlast
        subst hlast
        show effScoreOf r0 = _
        simp [effScoreOf, qsub_eq, qmul_eq, qdiv_eq]
      | some r1 =>
        have hcc : (r0 :: rest).getLast? = some r1 := by
          cases rest with
          | nil => cases hl
          | cons b t => rw [List.getLast?_cons_cons]; exact hl
        rw [hcc] at hlast
        simp only [Option.some.injEq] at hlast
        subst hlast
        simp [effScoreOf, qsub_eq, qmul_eq, qdiv_eq]
  · intro records hne
    have hie : (calculateEfficiencyMetrics records).1.isEmpty = false := by
      cases hh : (calculateEfficiencyMetrics records).1 with
      | nil => exact absurd hh hne
      | cons p ps => rfl
    show (if (buildMap (fun x => x.campaign_id) effStep records []).isEmpty then (0:ℚ)
      else qdiv (((buildMap (fun x => x.campaign_id) effStep records []).map
          (fun p => p.2.efficiency_score)).foldl qadd 0)
        (((buildMap (fun x => x.campaign_id) effStep records []).length : ℚ))) = _
    rw [show (buildMap (fun x => x.campaign_id) effStep records []).isEmpty =
      (calculateEfficiencyMetrics records).1.isEmpty from rfl, hie]
    simp only [Bool.false_eq_true, if_false]
    rw [qdiv_eq, foldl_qadd, zero_add]
    rfl

theorem C5_witness :
    (calculateEfficiencyMetrics [effRec1, effRec2]).2 =
      ((calculateEfficiencyMetrics [effRec1, effRec2]).1.map
        (fun p => p.2.efficiency_score)).sum /
        (((calculateEfficiencyMetrics [effRec1, effRec2]).1.length : ℚ)) :=
  C5_efficiency_score.2 [effRec1, effRec2] (by decide)

end KDP
